import Mathlib

/-!
Shallow embedding of the validation-pipeline engine of
`src/core/vcd/vcdValidations.py` (class `VCDMigrationValidation`), together
with proofs about its session guard, shared document store, async task
poller and rollback accounting.
-/

namespace VcdValidations

/-! ## Shared Document Store (`apiOutput.json`)

Each writing site in the source (`getProviderVDCDetails` lines 294-303,
`getExternalNetwork` lines 226-242, `getOrgVDCDetails`, `getOrgVDCNetworks`,
`getOrgVDCAffinityRules`, `validateVMPlacementPolicy`, ...) follows the same
pattern: open `apiOutput.json`, `json.load` it into `data`, perform a single
Python dict assignment `data[key] = value`, and `json.dump` the whole `data`
back.  We model the persisted document as an association list from key to an
opaque value (values are opaque to the store), and the read-modify-write as
`writeFact`, whose update mirrors Python dict assignment: replace the
binding of `key` if present, otherwise add it. -/

/-- The persisted shared document: a flat mapping from fact name to an
opaque structured value. -/
abbrev Doc (α : Type) := List (String × α)

/-- Lookup of a fact in the shared document. -/
def lookupFact {α : Type} : Doc α → String → Option α
  | [], _ => none
  | (k, v) :: rest, key => if k = key then some v else lookupFact rest key

/-- Python dict assignment `data[key] = value`: replace the existing binding
of `key` in place, or append a fresh binding. -/
def dictSet {α : Type} : Doc α → String → α → Doc α
  | [], key, value => [(key, value)]
  | (k, v) :: rest, key, value =>
    if k = key then (key, value) :: rest else (k, v) :: dictSet rest key value

/-- One scoped read-modify-write against the store, as performed by every
writing site of the source: load the existing document, merge in the new
key, persist the whole document. -/
def writeFact {α : Type} (persisted : Doc α) (key : String) (value : α) : Doc α :=
  dictSet persisted key value

/-- Key selection of `getProviderVDCDetails` (line 296): the fetched provider
VDC record is merged under `targetProviderVDC` when NSX-T backed, else under
`sourceProviderVDC`. -/
def getProviderVDCDetailsWrite {α : Type} (persisted : Doc α) (isNSXTbacked : Bool)
    (value : α) : Doc α :=
  writeFact persisted (if isNSXTbacked then "targetProviderVDC" else "sourceProviderVDC") value

/-! ## Single-record vs sequence normalization

Remote payloads parsed from XML may encode a one-element collection as a
bare record.  Every consuming check normalizes with the pattern
`x if isinstance(x, list) else [x]` (e.g. `validateStorageProfiles`
lines 487-489, `getOrgVDCUrl` lines 147-149, `getOrgUrl` lines 107-108).
We model the ambiguous decoded payload as a tagged union. -/

/-- A decoded remote payload that is either a bare record or a sequence of
records. -/
inductive PayloadShape (α : Type) where
  | single (a : α)
  | many (l : List α)
  deriving DecidableEq

/-- The per-check normalization `x if isinstance(x, list) else [x]`. -/
def normalizeShape {α : Type} : PayloadShape α → List α
  | .single a => [a]
  | .many l => l

/-- A storage profile record as consumed by `validateStorageProfiles`: only
its `@name` attribute is inspected. -/
structure StorageProfile where
  name : String
  deriving DecidableEq

/-- The list comprehension of `validateStorageProfiles` lines 491-492:
`[sourceDict['@name'] for sourceDict in source for targetDict in target if
sourceDict['@name'] == targetDict['@name']]`. -/
def storagePoliciesFound (src tgt : List StorageProfile) : List String :=
  src.flatMap (fun sd => (tgt.filter (fun td => sd.name == td.name)).map (fun _ => sd.name))

/-- `validateStorageProfiles` (lines 476-501): normalize both collections,
compute the matching names, succeed iff the count of source profiles equals
the count of matches found.  `true` means the validation passed. -/
def validateStorageProfiles (src tgt : PayloadShape StorageProfile) : Bool :=
  let sourceOrgVDCStorageProfile := normalizeShape src
  let targetPVDCStorageProfile := normalizeShape tgt
  let found := storagePoliciesFound sourceOrgVDCStorageProfile targetPVDCStorageProfile
  sourceOrgVDCStorageProfile.length == found.length

/-! ## Session Guard (`_isSessionExpired`, lines 35-46)

The decorator `inner` first issues a probe `GET {api}/session`; if the probe
status differs from `requests.codes.ok` (200) it calls `self.vcdLogin()`
(which itself raises when the credential exchange fails), and then invokes
the wrapped function exactly once.  We record the actions the guard performs
in order; the run aborts after a failed login, mirroring the exception
raised by `vcdLogin`. -/

/-- `requests.codes.ok`. -/
def requestsCodesOk : Nat := 200

/-- The externally visible actions of one guarded invocation. -/
inductive GuardAction where
  | probe
  | login
  | callOp
  deriving DecidableEq

/-- One run of the guard `inner(self, *args, **kwargs)`: the probe response
status and whether `vcdLogin` would succeed determine the actions performed;
the second component is `true` when the guard reached the wrapped call
(i.e. no exception escaped from `vcdLogin`). -/
def sessionGuardRun (probeStatus : Nat) (loginOk : Bool) : List GuardAction × Bool :=
  if probeStatus ≠ requestsCodesOk then
    if loginOk then ([.probe, .login, .callOp], true)
    else ([.probe, .login], false)
  else ([.probe, .callOp], true)

/-! ## Async Task Poller (`_checkTaskStatus`, lines 1140-1178)

The poller loops `while timeout < vcdConstants.VCD_CREATION_TIMEOUT`,
fetching the task record each tick and incrementing `timeout` by
`vcdConstants.VCD_CREATION_INTERVAL`.  For a positive interval the loop body
therefore runs exactly `⌈deadline / interval⌉` times; the elapsed waiting
time before tick `k` is `k * interval`.  The constants live in
`vcdConstants.py`, which is not part of the sources; per the spec they are
fixed process-wide positive values, so deadline and interval are kept as
parameters here.  Within the module `_checkTaskStatus` is invoked only with
`returnOutput` left at its default `False`
(`enableOrDisableSourceAffinityRules`, line 611), so the success branch
returns no captured output. -/

/-- Python `needle in hay` on strings restricted to a membership test at the
head of `hay`: does `hay` start with `needle`? -/
def charsStartWith : List Char → List Char → Bool
  | [], _ => true
  | _ :: _, [] => false
  | n :: ns, h :: hs => n == h && charsStartWith ns hs

/-- Occurrence of `needle` anywhere within `hay`. -/
def charsContain (needle : List Char) : List Char → Bool
  | [] => charsStartWith needle []
  | h :: hs => charsStartWith needle (h :: hs) || charsContain needle hs

/-- Python substring membership `needle in hay`. -/
def strIn (needle hay : String) : Bool := charsContain needle.data hay.data

/-- One fetched task record: HTTP status of the fetch, the parsed
`Task/@operationName`, `Task/@status` and `Task/Details` fields. -/
structure TaskResponse where
  statusCode : Nat
  operationName : String
  status : String
  details : String

/-- Terminal outcome of the poller. -/
inductive PollResult where
  | success
  | errored (details : String)
  | timedOut (msg : String)
  deriving DecidableEq

/-- The decision taken on one poll tick (loop body, lines 1155-1173):
`none` means no terminal state was observed and the loop keeps waiting.
A record is examined further only when the fetch returned 200 and
`taskName in responseDict["@operationName"]`; a `success` status returns, an
`error` status raises `Details`, anything else logs and keeps waiting. -/
def taskTick (taskName : String) (r : TaskResponse) : Option PollResult :=
  if r.statusCode == requestsCodesOk then
    if strIn taskName r.operationName then
      if r.status == "success" then some .success
      else if r.status == "error" then some (.errored r.details)
      else none
    else none
  else none

/-- The timeout exception message (line 1176). -/
def taskTimeoutMsg (taskName : String) : String :=
  "Task " ++ taskName ++ " could not complete in the allocated time."

/-- The polling loop over the stream of fetched responses, indexed by tick,
with `fuel` remaining iterations. -/
def pollGo (taskName : String) (resp : Nat → TaskResponse) : Nat → Nat → PollResult
  | 0, _ => .timedOut (taskTimeoutMsg taskName)
  | fuel + 1, tick =>
    match taskTick taskName (resp tick) with
    | some r => r
    | none => pollGo taskName resp fuel (tick + 1)

/-- Number of iterations of `while timeout < deadline: ...; timeout += interval`
starting from `timeout = 0`: the ceiling of `deadline / interval`. -/
def numTicks (deadline interval : Nat) : Nat := (deadline + interval - 1) / interval

/-- `_checkTaskStatus(taskUrl, taskName)`: poll the task record stream until
a terminal state or until the accumulated waiting time reaches the
deadline. -/
def checkTaskStatus (taskName : String) (resp : Nat → TaskResponse)
    (deadline interval : Nat) : PollResult :=
  pollGo taskName resp (numTicks deadline interval) 0

/-! ## Rollback Accounter and the Validation Pipeline (`preMigrationValidation`)

The two class-level rollback flags (lines 31-32) start `False` for a fresh
run.  A flag is assigned only in the `except` clause of certain validation
steps (always to `True`) and is read only in the failure handler of
`preMigrationValidation` (lines 1501-1510), which, in fixed order, calls
`enableSourceOrgVdc` when `ENABLE_SOURCE_ORG_VDC` is set and then
`enableOrDisableSourceAffinityRules(..., enable=True)` when
`ENABLE_AFFINITY_RULES_IN_SOURCE_VAPP` is set, and finally re-raises the
original error.  The handler wraps the two compensating calls in no inner
`try`, so an exception escaping a compensating call propagates immediately.

The pipeline (lines 1372-1500) is a strictly ordered sequence of steps,
fail-fast: the first step that raises terminates the run.  Each step's
effect on the flags when it raises is read off its `except` clause. -/

/-- The rollback flags of `VCDMigrationValidation` (lines 31-32). -/
structure Flags where
  ENABLE_SOURCE_ORG_VDC : Bool
  ENABLE_AFFINITY_RULES_IN_SOURCE_VAPP : Bool
  deriving DecidableEq

/-- Flag state at the start of a run. -/
def initFlags : Flags := ⟨false, false⟩

/-- The named steps of `preMigrationValidation`, in declaration order.
Repeated calls (`getExternalNetwork`, `getProviderVDCId`,
`getProviderVDCDetails`) are distinguished by their role. -/
inductive StepName where
  | vcdLogin
  | getOrgUrl
  | getOrgVDCDetailsSource
  | validateNoTargetOrgVDCExists
  | validateNoEmptyVappsExistInSourceOrgVDC
  | validateSourceSuspendedVMsInVapp
  | validateNoVappNetworksExist
  | validateOrgVDCFastProvisioned
  | getExternalNetworkSource
  | getExternalNetworkTarget
  | getExternalNetworkDummy
  | validateDedicatedExternalNetwork
  | getProviderVDCIdSource
  | getProviderVDCDetailsSource
  | validateSourceNetworkPools
  | validateOrgVDCNSXVbacked
  | getProviderVDCIdTarget
  | getProviderVDCDetailsTarget
  | validateHardwareVersionStep
  | validateTargetProviderVdc
  | disableOrgVDC
  | validateVMPlacementPolicy
  | validateStorageProfilesStep
  | validateExternalNetworkSubnets
  | getOrgVDCAffinityRules
  | enableOrDisableSourceAffinityRulesDisable
  | validateSingleEdgeGatewayExistForOrgVDC
  | getOrgVDCNetworks
  | validateDHCPEnabledonIsolatedVdcNetworks
  | validateOrgVDCNetworkShared
  | validateOrgVDCNetworkDirect
  | getEdgeGatewayServices
  | validateIndependentDisksDoesNotExistsInOrgVDC
  deriving DecidableEq

/-- The pipeline step order of `preMigrationValidation` (lines 1378-1498). -/
def pipelineSteps : List StepName :=
  [.vcdLogin, .getOrgUrl, .getOrgVDCDetailsSource, .validateNoTargetOrgVDCExists,
   .validateNoEmptyVappsExistInSourceOrgVDC, .validateSourceSuspendedVMsInVapp,
   .validateNoVappNetworksExist, .validateOrgVDCFastProvisioned,
   .getExternalNetworkSource, .getExternalNetworkTarget, .getExternalNetworkDummy,
   .validateDedicatedExternalNetwork, .getProviderVDCIdSource,
   .getProviderVDCDetailsSource, .validateSourceNetworkPools,
   .validateOrgVDCNSXVbacked, .getProviderVDCIdTarget, .getProviderVDCDetailsTarget,
   .validateHardwareVersionStep, .validateTargetProviderVdc, .disableOrgVDC,
   .validateVMPlacementPolicy, .validateStorageProfilesStep,
   .validateExternalNetworkSubnets, .getOrgVDCAffinityRules,
   .enableOrDisableSourceAffinityRulesDisable, .validateSingleEdgeGatewayExistForOrgVDC,
   .getOrgVDCNetworks, .validateDHCPEnabledonIsolatedVdcNetworks,
   .validateOrgVDCNetworkShared, .validateOrgVDCNetworkDirect,
   .getEdgeGatewayServices, .validateIndependentDisksDoesNotExistsInOrgVDC]

/-- Flag assignment performed by a step's `except` clause when the step
raises.  Steps whose `except` clause sets `self.ENABLE_SOURCE_ORG_VDC = True`:
lines 470-473, 498-501, 523-526, 555-558, 617-620; steps additionally
setting `self.ENABLE_AFFINITY_RULES_IN_SOURCE_VAPP = True`: lines 666-670,
728-732, 747-751, 764-768, 812-816, 847-851.  All other steps re-raise
without touching the flags. -/
def flagsOnFailure : StepName → Flags → Flags
  | .validateVMPlacementPolicy, f => { f with ENABLE_SOURCE_ORG_VDC := true }
  | .validateStorageProfilesStep, f => { f with ENABLE_SOURCE_ORG_VDC := true }
  | .validateExternalNetworkSubnets, f => { f with ENABLE_SOURCE_ORG_VDC := true }
  | .getOrgVDCAffinityRules, f => { f with ENABLE_SOURCE_ORG_VDC := true }
  | .enableOrDisableSourceAffinityRulesDisable, f => { f with ENABLE_SOURCE_ORG_VDC := true }
  | .validateSingleEdgeGatewayExistForOrgVDC, _ => ⟨true, true⟩
  | .validateDHCPEnabledonIsolatedVdcNetworks, _ => ⟨true, true⟩
  | .validateOrgVDCNetworkShared, _ => ⟨true, true⟩
  | .validateOrgVDCNetworkDirect, _ => ⟨true, true⟩
  | .getEdgeGatewayServices, _ => ⟨true, true⟩
  | .validateIndependentDisksDoesNotExistsInOrgVDC, _ => ⟨true, true⟩
  | _, f => f

/-- Fail-fast execution of the step list: `env` tells, per position, whether
the step at that position raises.  No step changes the flags on success (the
assignments sit in `except` clauses only); the first raising step applies
its `except`-clause flag assignment and stops the run.  Returns the flag
state at that point and the position and name of the failing step, if
any. -/
def runSteps (env : Nat → Bool) : List StepName → Nat → Flags → Flags × Option (Nat × StepName)
  | [], _, f => (f, none)
  | s :: rest, i, f =>
    if env i then (flagsOnFailure s f, some (i, s))
    else runSteps env rest (i + 1) f

/-- The two compensating calls of the failure handler. -/
inductive CompCall where
  | enableSourceOrgVdc
  | enableAffinityRules
  deriving DecidableEq

/-- The error a failed run surfaces to the caller: either the original step
error (re-raised by the bare `raise`, line 1510) or an exception that
escaped one of the compensating calls. -/
inductive RunError where
  | stepError (step : StepName)
  | compError (call : CompCall)
  deriving DecidableEq

/-- The failure handler of `preMigrationValidation` (lines 1501-1510):
consult the accumulated flags; call `enableSourceOrgVdc` if
`ENABLE_SOURCE_ORG_VDC` is set; then call
`enableOrDisableSourceAffinityRules(..., enable=True)` if
`ENABLE_AFFINITY_RULES_IN_SOURCE_VAPP` is set; finally re-raise the original
error.  `compOk c` tells whether compensating call `c` returns normally;
there is no inner `try`, so a raising compensating call ends the handler at
once with that call's exception.  Returns the compensating calls invoked, in
order, and the error that propagates to the caller. -/
def rollbackHandler (flags : Flags) (compOk : CompCall → Bool) (failedStep : StepName) :
    List CompCall × RunError :=
  if flags.ENABLE_SOURCE_ORG_VDC then
    if compOk .enableSourceOrgVdc then
      if flags.ENABLE_AFFINITY_RULES_IN_SOURCE_VAPP then
        if compOk .enableAffinityRules then
          ([.enableSourceOrgVdc, .enableAffinityRules], .stepError failedStep)
        else
          ([.enableSourceOrgVdc, .enableAffinityRules], .compError .enableAffinityRules)
      else ([.enableSourceOrgVdc], .stepError failedStep)
    else ([.enableSourceOrgVdc], .compError .enableSourceOrgVdc)
  else
    if flags.ENABLE_AFFINITY_RULES_IN_SOURCE_VAPP then
      if compOk .enableAffinityRules then
        ([.enableAffinityRules], .stepError failedStep)
      else ([.enableAffinityRules], .compError .enableAffinityRules)
    else ([], .stepError failedStep)

/-- A whole run of `preMigrationValidation`: execute the steps fail-fast
from a fresh flag state; on success no compensating call is made and no
error is raised; on the first failure run the rollback handler on the
accumulated flags.  Returns the list of compensating calls invoked and the
propagated error, if any. -/
def preMigrationValidation (env : Nat → Bool) (compOk : CompCall → Bool) :
    List CompCall × Option RunError :=
  match runSteps env pipelineSteps 0 initFlags with
  | (_, none) => ([], none)
  | (flags, some (_, s)) =>
    let (calls, err) := rollbackHandler flags compOk s
    (calls, some err)

/-- Flag state accumulated by a run (at failure time if the run fails). -/
def flagsAtEnd (env : Nat → Bool) : Flags :=
  (runSteps env pipelineSteps 0 initFlags).1

/-- Pointwise implication on flag states: `flagLe a b` holds when every flag
set in `a` is still set in `b`. -/
def flagLe (a b : Flags) : Prop :=
  (a.ENABLE_SOURCE_ORG_VDC = true → b.ENABLE_SOURCE_ORG_VDC = true) ∧
  (a.ENABLE_AFFINITY_RULES_IN_SOURCE_VAPP = true →
    b.ENABLE_AFFINITY_RULES_IN_SOURCE_VAPP = true)

/-! ## `validateHardwareVersion` (lines 1635-1667)

Each supported-hardware-version record contributes its `@name` attribute,
e.g. `"vmx-14"`, split on `-` into a family name and a numeric version
(`[name, currentVersion] = eachSourceVersionDetail['@name'].split('-')`).
The loop keeps the running maximum and, on every iteration, rebuilds the
highest-version display name from the current record's family name and the
running maximum.  When the source maximum exceeds the target maximum the
code executes `raise (<string>)` (lines 1660-1663) — in Python 3 raising a
plain `str` does not produce the message-carrying exception: it fails with
`TypeError: exceptions must derive from BaseException`.  The embedding keeps
that branch distinct. -/

/-- Outcome of `validateHardwareVersion`. -/
inductive HwVersionResult where
  | ok
  | raisesBareString (msg : String)
  | valueError
  deriving DecidableEq

/-- Python `str.split('-')` on the underlying character list, accumulating
the current segment in reverse. -/
def splitDash : List Char → List Char → List (List Char)
  | [], acc => [acc.reverse]
  | c :: cs, acc =>
    if c == '-' then acc.reverse :: splitDash cs [] else splitDash cs (c :: acc)

/-- Python `int(s)` restricted to plain digit strings: `none` models the
`ValueError` raised on anything else (including the empty string). -/
def charsToNat? (l : List Char) : Option Nat :=
  if l.isEmpty then none else go l 0
where
  go : List Char → Nat → Option Nat
    | [], acc => some acc
    | c :: cs, acc => if c.isDigit then go cs (acc * 10 + (c.toNat - 48)) else none

/-- The highest-version loop (lines 1648-1652 and 1654-1658): fold over the
`@name` attributes, tracking the numeric maximum and the display name
rebuilt each iteration; a `@name` that does not split into exactly two parts
or whose version part is not numeric makes the Python loop raise
(`ValueError`), modelled as `none`. -/
def highestVersionLoop : List String → Nat → String → Option (Nat × String)
  | [], best, bestName => some (best, bestName)
  | n :: rest, best, _bestName =>
    match splitDash n.data [] with
    | [name, currentVersion] =>
      match charsToNat? currentVersion with
      | some v =>
        let best' := if v > best then v else best
        highestVersionLoop rest best' (String.mk name ++ "-" ++ toString best')
      | none => none
    | _ => none

/-- The failure message built at lines 1661-1663. -/
def hwIncompatibleMsg (srcName tgtName : String) : String :=
  "Hardware version on both Source Provider VDC and Target Provider VDC are not compatible, either both should be same or target PVDC hardware version should be greater than source PVDC hardware version. Source Provider VDC: " ++ srcName ++ " and Target Provider VDC is: " ++ tgtName

/-- `validateHardwareVersion`: compute the highest supported hardware
version of the source and the target provider VDC; when the source exceeds
the target, the code reaches `raise (<string>)`, i.e. the defective
bare-string raise; otherwise it logs compatibility and returns. -/
def validateHardwareVersion (srcVersionNames tgtVersionNames : List String) : HwVersionResult :=
  match highestVersionLoop srcVersionNames 0 "" with
  | none => .valueError
  | some (highestSourceVersion, highestSourceVersionName) =>
    match highestVersionLoop tgtVersionNames 0 "" with
    | none => .valueError
    | some (highestTargetVersion, highestTargetVersionName) =>
      if highestSourceVersion > highestTargetVersion then
        .raisesBareString (hwIncompatibleMsg highestSourceVersionName highestTargetVersionName)
      else .ok

/-! ## `enableSourceOrgVdc` (lines 1218-1244) and `disableOrgVDC` (lines 351-398)

Both consult `data['sourceOrgVDC']['IsEnabled']` as recorded in the shared
document at discovery time.  `enableSourceOrgVdc` posts the enable call only
when that recorded value equals `"true"`; otherwise it logs and returns
without any remote call.  `disableOrgVDC(…, isSourceDisable=True)` skips the
disable post when the recorded value is `"false"` (warning only); in the
`isSourceDisable=False` branch it posts the disable for the target org VDC
precisely when the source was recorded disabled.  `postOk` tells whether the
POST returns the expected `no_content` status; on any other status the
function raises. -/

/-- Remote mutating calls issued by the two functions. -/
inductive VdcCall where
  | enablePost
  | disablePost
  deriving DecidableEq

/-- `enableSourceOrgVdc`: returns the remote calls issued and whether the
function returned normally (`false` = raised). -/
def enableSourceOrgVdc (sourceIsEnabled : String) (postOk : Bool) : List VdcCall × Bool :=
  if sourceIsEnabled == "true" then ([.enablePost], postOk)
  else ([], true)

/-- `disableOrgVDC`: returns the remote calls issued and whether the
function returned normally (`false` = raised). -/
def disableOrgVDC (sourceIsEnabled : String) (isSourceDisable : Bool) (postOk : Bool) :
    List VdcCall × Bool :=
  if isSourceDisable then
    if sourceIsEnabled == "false" then ([], true)
    else ([.disablePost], postOk)
  else
    if sourceIsEnabled == "false" then ([.disablePost], postOk)
    else ([], true)

/-! ## Supporting lemmas -/

theorem lookupFact_dictSet_self {α : Type} (d : Doc α) (k : String) (v : α) :
    lookupFact (dictSet d k v) k = some v := by
  induction d with
  | nil => simp [dictSet, lookupFact]
  | cons hd tl ih =>
    obtain ⟨k', v'⟩ := hd
    by_cases h : k' = k
    · simp [dictSet, lookupFact, h]
    · simp [dictSet, lookupFact, h, ih]

theorem lookupFact_dictSet_other {α : Type} (d : Doc α) (k k' : String) (v : α)
    (hne : k' ≠ k) : lookupFact (dictSet d k v) k' = lookupFact d k' := by
  induction d with
  | nil => simp [dictSet, lookupFact, Ne.symm hne]
  | cons hd tl ih =>
    obtain ⟨k0, v0⟩ := hd
    by_cases h : k0 = k
    · subst h
      simp [dictSet, lookupFact, Ne.symm hne]
    · simp only [dictSet, if_neg h]
      by_cases h' : k0 = k'
      · simp [lookupFact, h']
      · simp [lookupFact, h', ih]

theorem lt_numTicks_iff (deadline interval k : Nat) (hi : 0 < interval) :
    k < numTicks deadline interval ↔ k * interval < deadline := by
  unfold numTicks
  rw [Nat.lt_iff_add_one_le, Nat.le_div_iff_mul_le hi, add_one_mul]
  omega

theorem pollGo_of_none (taskName : String) (resp : Nat → TaskResponse)
    (fuel tick : Nat) (h : ∀ j, j < fuel → taskTick taskName (resp (tick + j)) = none) :
    pollGo taskName resp fuel tick = .timedOut (taskTimeoutMsg taskName) := by
  induction fuel generalizing tick with
  | zero => simp [pollGo]
  | succ n ih =>
    have h0 := h 0 (Nat.succ_pos n)
    simp only [Nat.add_zero] at h0
    simp only [pollGo, h0]
    exact ih (tick + 1) (fun j hj => by
      have := h (j + 1) (by omega)
      simpa [Nat.add_assoc, Nat.add_comm 1 j] using this)

theorem pollGo_reaches (taskName : String) (resp : Nat → TaskResponse)
    (fuel tick k : Nat) (hk : k < fuel)
    (hbefore : ∀ j, j < k → taskTick taskName (resp (tick + j)) = none)
    (r : PollResult) (hit : taskTick taskName (resp (tick + k)) = some r) :
    pollGo taskName resp fuel tick = r := by
  induction fuel generalizing tick k with
  | zero => omega
  | succ n ih =>
    match k with
    | 0 =>
      simp only [Nat.add_zero] at hit
      simp [pollGo, hit]
    | k' + 1 =>
      have h0 := hbefore 0 (Nat.succ_pos k')
      simp only [Nat.add_zero] at h0
      simp only [pollGo, h0]
      exact ih (tick + 1) k' (by omega)
        (fun j hj => by
          have := hbefore (j + 1) (by omega)
          simpa [Nat.add_assoc, Nat.add_comm 1 j] using this)
        (by simpa [Nat.add_assoc, Nat.add_comm 1 k'] using hit)

theorem pollGo_success_position (taskName : String) (resp : Nat → TaskResponse)
    (fuel tick : Nat) (h : pollGo taskName resp fuel tick = .success) :
    ∃ k, k < fuel ∧ taskTick taskName (resp (tick + k)) = some .success := by
  induction fuel generalizing tick with
  | zero => simp [pollGo, taskTimeoutMsg] at h
  | succ n ih =>
    cases hc : taskTick taskName (resp tick) with
    | some r =>
      have hr : r = .success := by simpa [pollGo, hc] using h
      exact ⟨0, Nat.succ_pos n, by simp [hc, hr]⟩
    | none =>
      have h' : pollGo taskName resp n (tick + 1) = .success := by
        simpa [pollGo, hc] using h
      obtain ⟨k, hk, hkk⟩ := ih (tick + 1) h'
      exact ⟨k + 1, by omega, by simpa [Nat.add_assoc, Nat.add_comm 1 k] using hkk⟩

theorem taskTick_eq_success_iff (t : String) (r : TaskResponse) :
    taskTick t r = some .success ↔
      r.statusCode = requestsCodesOk ∧ strIn t r.operationName = true ∧
        r.status = "success" := by
  unfold taskTick
  split_ifs with h1 h2 h3 h4 <;> simp_all

theorem taskTick_of_no_match (t : String) (r : TaskResponse)
    (h : strIn t r.operationName = false) : taskTick t r = none := by
  unfold taskTick
  split_ifs with h1 h2 <;> simp_all

theorem charsStartWith_self_append (s t : List Char) :
    charsStartWith s (s ++ t) = true := by
  induction s with
  | nil => simp [charsStartWith]
  | cons c cs ih => simp [charsStartWith, ih]

theorem charsContain_of_starts (n hay : List Char) (h : charsStartWith n hay = true) :
    charsContain n hay = true := by
  cases hay with
  | nil => simpa [charsContain] using h
  | cons c cs => simp [charsContain, h]

theorem charsContain_append_left (n pre hay : List Char)
    (h : charsContain n hay = true) : charsContain n (pre ++ hay) = true := by
  induction pre with
  | nil => simpa using h
  | cons c cs ih => simp [charsContain, ih]

theorem strIn_taskTimeoutMsg (t : String) : strIn t (taskTimeoutMsg t) = true := by
  show charsContain t.data (taskTimeoutMsg t).data = true
  have hdata : (taskTimeoutMsg t).data =
      "Task ".data ++ (t.data ++ " could not complete in the allocated time.".data) := by
    simp [taskTimeoutMsg, String.data_append]
  rw [hdata]
  exact charsContain_append_left _ _ _
    (charsContain_of_starts _ _ (charsStartWith_self_append _ _))

theorem flagsOnFailure_mono (s : StepName) (f : Flags) : flagLe f (flagsOnFailure s f) := by
  cases s <;> simp [flagsOnFailure, flagLe]

theorem runSteps_flags_mono (env : Nat → Bool) (l : List StepName) (i : Nat) (f : Flags) :
    flagLe f (runSteps env l i f).1 := by
  induction l generalizing i with
  | nil => exact ⟨fun h => h, fun h => h⟩
  | cons s rest ih =>
    simp only [runSteps]
    by_cases he : env i
    · simpa [he] using flagsOnFailure_mono s f
    · simpa [he] using ih (i + 1)

theorem runSteps_eq_of_fail (env : Nat → Bool) (k : Nat) (s : StepName)
    (hfail : (runSteps env pipelineSteps 0 initFlags).2 = some (k, s)) :
    runSteps env pipelineSteps 0 initFlags = (flagsAtEnd env, some (k, s)) := by
  cases hp : runSteps env pipelineSteps 0 initFlags with
  | mk fl r =>
    rw [hp] at hfail
    rw [flagsAtEnd, hp]
    exact congrArg (Prod.mk fl) hfail

/-! ## Claim theorems -/

/-- C1 counterexample: the claim "each compensating call whose rollback flag
is set at the time of failure is invoked exactly once" is false on the code.
In the run where `validateSingleEdgeGatewayExistForOrgVDC` (position 26)
raises — setting both rollback flags — and the compensating call
`enableSourceOrgVdc` itself raises, the failure handler never reaches the
affinity-rules compensation: its flag is set, yet it is invoked zero
times. -/
theorem premigration_compensation_skipped_counterexample :
    ((flagsAtEnd (fun n => n == 26)).ENABLE_AFFINITY_RULES_IN_SOURCE_VAPP = true) ∧
    (preMigrationValidation (fun n => n == 26)
        (fun c => c == CompCall.enableAffinityRules)).2.isSome = true ∧
    ((preMigrationValidation (fun n => n == 26)
        (fun c => c == CompCall.enableAffinityRules)).1.count
      CompCall.enableAffinityRules = 0) := by
  decide

/-- C1 (amended): for every pipeline run that fails at some step, when every
invoked compensating call returns without error, the failure handler invokes
exactly the compensating calls whose flag is set at failure time, each
exactly once, in the fixed order: `enableSourceOrgVdc` first (when
`ENABLE_SOURCE_ORG_VDC` is set), then the affinity-rules re-enable (when
`ENABLE_AFFINITY_RULES_IN_SOURCE_VAPP` is set); a compensation whose flag is
unset is never invoked. -/
theorem premigration_compensation_calls (env : Nat → Bool) (compOk : CompCall → Bool)
    (hok : ∀ c, compOk c = true) (k : Nat) (s : StepName)
    (hfail : (runSteps env pipelineSteps 0 initFlags).2 = some (k, s)) :
    (preMigrationValidation env compOk).1 =
      (if (flagsAtEnd env).ENABLE_SOURCE_ORG_VDC then [CompCall.enableSourceOrgVdc] else []) ++
      (if (flagsAtEnd env).ENABLE_AFFINITY_RULES_IN_SOURCE_VAPP then
        [CompCall.enableAffinityRules] else []) := by
  have hrs := runSteps_eq_of_fail env k s hfail
  unfold preMigrationValidation
  rw [hrs]
  obtain ⟨e, a⟩ := flagsAtEnd env
  cases e <;> cases a <;> simp [rollbackHandler, hok]

/-- Witness for C1: in the run failing at `validateSingleEdgeGatewayExistForOrgVDC`
with both compensations succeeding, the theorem yields the two compensating
calls in the fixed order. -/
theorem premigration_compensation_calls_witness :
    (preMigrationValidation (fun n => n == 26) (fun _ => true)).1 =
      (if (flagsAtEnd (fun n => n == 26)).ENABLE_SOURCE_ORG_VDC then
        [CompCall.enableSourceOrgVdc] else []) ++
      (if (flagsAtEnd (fun n => n == 26)).ENABLE_AFFINITY_RULES_IN_SOURCE_VAPP then
        [CompCall.enableAffinityRules] else []) :=
  premigration_compensation_calls (fun n => n == 26) (fun _ => true) (fun _ => rfl)
    26 .validateSingleEdgeGatewayExistForOrgVDC (by decide)

/-- C2 counterexample: the claim "a failure of one compensating call does
not prevent the remaining compensating calls from being attempted, and the
pipeline re-raises the original triggering error" is false on the code.  In
the run failing at `validateSingleEdgeGatewayExistForOrgVDC` (both flags
set) with `enableSourceOrgVdc` raising during rollback, the propagated error
is the compensation's error — not the original step error — and the
remaining compensation is never attempted. -/
theorem premigration_rollback_masks_counterexample :
    ((preMigrationValidation (fun n => n == 26)
        (fun c => c == CompCall.enableAffinityRules)).2 =
      some (.compError .enableSourceOrgVdc)) ∧
    ((flagsAtEnd (fun n => n == 26)).ENABLE_AFFINITY_RULES_IN_SOURCE_VAPP = true) ∧
    ((preMigrationValidation (fun n => n == 26)
        (fun c => c == CompCall.enableAffinityRules)).1.count
      CompCall.enableAffinityRules = 0) := by
  decide

/-- C2 (amended): when every invoked compensating call returns without
error, the failure handler re-raises the original step error to the caller;
but when an invoked compensating call raises — whichever of the two it is —
the remaining compensations are skipped and that compensating call's own
error, not the original, propagates: if `enableSourceOrgVdc` raises (its
flag being set) the affinity-rules compensation is never attempted and the
`enableSourceOrgVdc` error propagates; if the affinity-rules compensation is
reached (its flag set, and `enableSourceOrgVdc` either not flagged or
succeeding) and raises, its error propagates. -/
theorem premigration_error_propagation (env : Nat → Bool) (compOk : CompCall → Bool)
    (k : Nat) (s : StepName)
    (hfail : (runSteps env pipelineSteps 0 initFlags).2 = some (k, s)) :
    ((∀ c, compOk c = true) →
      (preMigrationValidation env compOk).2 = some (.stepError s)) ∧
    (compOk .enableSourceOrgVdc = false →
      (flagsAtEnd env).ENABLE_SOURCE_ORG_VDC = true →
      (preMigrationValidation env compOk).2 = some (.compError .enableSourceOrgVdc) ∧
      (preMigrationValidation env compOk).1.count CompCall.enableAffinityRules = 0) ∧
    (((flagsAtEnd env).ENABLE_SOURCE_ORG_VDC = true →
        compOk .enableSourceOrgVdc = true) →
      compOk .enableAffinityRules = false →
      (flagsAtEnd env).ENABLE_AFFINITY_RULES_IN_SOURCE_VAPP = true →
      (preMigrationValidation env compOk).2 = some (.compError .enableAffinityRules)) := by
  have hrs := runSteps_eq_of_fail env k s hfail
  unfold preMigrationValidation
  rw [hrs]
  obtain ⟨e, a⟩ := flagsAtEnd env
  refine ⟨?_, ?_, ?_⟩
  · intro hok
    cases e <;> cases a <;> simp [rollbackHandler, hok]
  · intro hbad he
    cases e with
    | false => simp at he
    | true => cases a <;> simp [rollbackHandler, hbad]
  · intro h1 hbad ha
    cases a with
    | false => simp at ha
    | true =>
      cases e with
      | false => simp [rollbackHandler, hbad]
      | true => simp [rollbackHandler, h1 rfl, hbad]

/-- Witness for C2: in the run failing at `validateSingleEdgeGatewayExistForOrgVDC`
with both compensations succeeding, the original step error is re-raised. -/
theorem premigration_error_propagation_witness :
    (preMigrationValidation (fun n => n == 26) (fun _ => true)).2 =
      some (.stepError .validateSingleEdgeGatewayExistForOrgVDC) :=
  (premigration_error_propagation (fun n => n == 26) (fun _ => true)
    26 .validateSingleEdgeGatewayExistForOrgVDC (by decide)).1 (fun _ => rfl)

/-- C3: every guarded invocation that completes issues the probe first,
re-authenticates exactly when the probe status is not `requests.codes.ok`,
and invokes the wrapped operation exactly once; a probe reporting success
never triggers re-authentication. -/
theorem sessionGuard_probe_then_reauth (probeStatus : Nat) (loginOk : Bool)
    (hdone : (sessionGuardRun probeStatus loginOk).2 = true) :
    (probeStatus = requestsCodesOk →
      (sessionGuardRun probeStatus loginOk).1 = [.probe, .callOp]) ∧
    (probeStatus ≠ requestsCodesOk →
      (sessionGuardRun probeStatus loginOk).1 = [.probe, .login, .callOp]) := by
  by_cases h : probeStatus = requestsCodesOk
  · constructor
    · intro _
      simp [sessionGuardRun, h]
    · intro h'
      exact absurd h h'
  · have hlo : loginOk = true := by
      cases loginOk with
      | true => rfl
      | false => simp [sessionGuardRun, h] at hdone
    constructor
    · intro h'
      exact absurd h' h
    · intro _
      simp [sessionGuardRun, h, hlo]

/-- Witness for C3: a probe returning 200 leads to the wrapped call with no
re-login. -/
theorem sessionGuard_probe_then_reauth_witness :
    (sessionGuardRun 200 false).1 = [.probe, .callOp] :=
  (sessionGuard_probe_then_reauth 200 false (by decide)).1 rfl

/-- C4: the poller returns success only when some fetched record was
retrieved with status 200, its operation name contains the expected task
name, and its status is the success terminal value; and when no fetched
record's operation name matches the expected task name the poller never
treats any record as completion — it waits until the deadline and times
out. -/
theorem checkTaskStatus_success_requires_match (taskName : String)
    (resp : Nat → TaskResponse) (deadline interval : Nat) :
    (checkTaskStatus taskName resp deadline interval = .success →
      ∃ k, k < numTicks deadline interval ∧
        (resp k).statusCode = requestsCodesOk ∧
        strIn taskName (resp k).operationName = true ∧
        (resp k).status = "success") ∧
    ((∀ k, strIn taskName (resp k).operationName = false) →
      checkTaskStatus taskName resp deadline interval =
        .timedOut (taskTimeoutMsg taskName)) := by
  constructor
  · intro h
    obtain ⟨k, hk, hkk⟩ := pollGo_success_position taskName resp _ 0 h
    simp only [Nat.zero_add] at hkk
    exact ⟨k, hk, (taskTick_eq_success_iff taskName (resp k)).mp hkk⟩
  · intro h
    exact pollGo_of_none taskName resp _ 0
      (fun j _ => taskTick_of_no_match taskName (resp (0 + j)) (h (0 + j)))

/-- Witness for C4: a stream whose operation names never contain the task
name makes the poller time out. -/
theorem checkTaskStatus_success_requires_match_witness :
    checkTaskStatus "updateAffinityRule"
      (fun _ => ⟨200, "unrelatedOperation", "success", ""⟩) 3 1 =
      .timedOut (taskTimeoutMsg "updateAffinityRule") :=
  (checkTaskStatus_success_requires_match "updateAffinityRule"
    (fun _ => ⟨200, "unrelatedOperation", "success", ""⟩) 3 1).2 (fun _ => by decide)

/-- C5: the poller terminates.  With a positive poll interval, if no poll
tick taken before the accumulated waiting time reaches the deadline observes
a terminal state, the poller returns the timeout error, whose message names
the task; and if a tick reached before the deadline observes a matching
success (all earlier ticks having observed no terminal state), the poller
returns success rather than timing out. -/
theorem checkTaskStatus_deadline (taskName : String) (resp : Nat → TaskResponse)
    (deadline interval : Nat) (hi : 0 < interval) :
    ((∀ k, k * interval < deadline → taskTick taskName (resp k) = none) →
      checkTaskStatus taskName resp deadline interval =
        .timedOut (taskTimeoutMsg taskName) ∧
      strIn taskName (taskTimeoutMsg taskName) = true) ∧
    (∀ k, k * interval < deadline →
      (∀ j, j < k → taskTick taskName (resp j) = none) →
      taskTick taskName (resp k) = some .success →
      checkTaskStatus taskName resp deadline interval = .success) := by
  constructor
  · intro h
    refine ⟨pollGo_of_none taskName resp _ 0 (fun j hj => ?_), strIn_taskTimeoutMsg taskName⟩
    exact h (0 + j) ((lt_numTicks_iff deadline interval (0 + j) hi).mp (by simpa using hj))
  · intro k hk hbefore hit
    refine pollGo_reaches taskName resp _ 0 k
      ((lt_numTicks_iff deadline interval k hi).mpr hk) ?_ _ ?_
    · intro j hj
      simpa using hbefore j hj
    · simpa using hit

/-- Witness for C5: a matching success on the first tick, before a deadline
of 10 with interval 1, returns success. -/
theorem checkTaskStatus_deadline_witness :
    checkTaskStatus "updateAffinityRule"
      (fun _ => ⟨200, "task updateAffinityRule(x)", "success", ""⟩) 10 1 = .success :=
  (checkTaskStatus_deadline "updateAffinityRule"
      (fun _ => ⟨200, "task updateAffinityRule(x)", "success", ""⟩) 10 1 (by decide)).2
    0 (by decide) (fun j hj => absurd hj (by omega)) (by decide)

/-- C6: the rollback flags are write-once-true.  Every step's failure-time
flag assignment only preserves or raises each flag (never resets a set flag),
and consequently along any fail-fast execution of any step list the flag
state only grows: a flag set at any point is still set in the final flag
state. -/
theorem rollback_flags_write_once :
    (∀ (s : StepName) (f : Flags), flagLe f (flagsOnFailure s f)) ∧
    (∀ (env : Nat → Bool) (l : List StepName) (i : Nat) (f : Flags),
      flagLe f (runSteps env l i f).1) :=
  ⟨flagsOnFailure_mono, runSteps_flags_mono⟩

/-- Witness for C6: a set affinity flag survives the failure assignment of
`validateStorageProfiles`. -/
theorem rollback_flags_write_once_witness :
    (flagsOnFailure .validateStorageProfilesStep ⟨false, true⟩).ENABLE_AFFINITY_RULES_IN_SOURCE_VAPP = true :=
  (rollback_flags_write_once.1 .validateStorageProfilesStep ⟨false, true⟩).2 rfl

/-- C7: every write of a fact to the shared document is a read-modify-write
preserving all other keys: the persisted document afterwards holds the new
value at the written key and the unchanged prior value at every other
key. -/
theorem writeFact_frame {α : Type} (d : Doc α) (k k' : String) (v : α)
    (hne : k' ≠ k) :
    lookupFact (writeFact d k v) k = some v ∧
    lookupFact (writeFact d k v) k' = lookupFact d k' :=
  ⟨lookupFact_dictSet_self d k v, lookupFact_dictSet_other d k k' v hne⟩

/-- Witness for C7: merging `targetProviderVDC` into a document leaves the
previously recorded `sourceOrgVDC` fact intact. -/
theorem writeFact_frame_witness :
    lookupFact (writeFact [("sourceOrgVDC", 1)] "targetProviderVDC" 2)
      "targetProviderVDC" = some 2 ∧
    lookupFact (writeFact [("sourceOrgVDC", 1)] "targetProviderVDC" 2)
      "sourceOrgVDC" = lookupFact [("sourceOrgVDC", 1)] "sourceOrgVDC" :=
  writeFact_frame [("sourceOrgVDC", 1)] "targetProviderVDC" "sourceOrgVDC" 2 (by decide)

/-- C8: a one-element collection encoded as a bare record normalizes to the
same sequence of length one as its explicit one-element-sequence encoding,
and consequently a check consuming the ambiguous shape — here the
storage-profile validation, on either of its two collections — computes the
same outcome on both encodings. -/
theorem normalizeShape_single_eq_one_element :
    (∀ (α : Type) (a : α), normalizeShape (.single a) = normalizeShape (.many [a]) ∧
      (normalizeShape (.single a)).length = 1) ∧
    (∀ (a : StorageProfile) (tgt : PayloadShape StorageProfile),
      validateStorageProfiles (.single a) tgt = validateStorageProfiles (.many [a]) tgt) ∧
    (∀ (src : PayloadShape StorageProfile) (a : StorageProfile),
      validateStorageProfiles src (.single a) = validateStorageProfiles src (.many [a])) :=
  ⟨fun _ _ => ⟨rfl, rfl⟩, fun _ _ => rfl, fun _ _ => rfl⟩

set_option maxRecDepth 4000 in
/-- C9: with the source provider VDC supporting hardware versions up to
`vmx-14` and the target only up to `vmx-13`, `validateHardwareVersion` does
not complete successfully — but instead of surfacing a descriptive exception
object it reaches `raise (<string>)` on a plain string (lines 1660-1663),
which in Python 3 fails with `TypeError: exceptions must derive from
BaseException` rather than carrying the message naming the incompatible
versions. -/
theorem validateHardwareVersion_raises_bare_string :
    validateHardwareVersion ["vmx-9", "vmx-14"] ["vmx-13"] =
      .raisesBareString (hwIncompatibleMsg "vmx-14" "vmx-13") := by
  decide

/-- C10: rollback preserves the source Org VDC's original enabled state:
`enableSourceOrgVdc` issues the enable POST only when the shared document
recorded `IsEnabled == "true"` at discovery time — for any other recorded
value it issues no remote call at all — and `disableOrgVDC` on the source
skips the disable POST when the source was already disabled.  Hence a source
Org VDC that was disabled before the run is never enabled by rollback. -/
theorem enableSourceOrgVdc_preserves_disabled (sourceIsEnabled : String) (postOk : Bool) :
    ((enableSourceOrgVdc sourceIsEnabled postOk).1.count .enablePost ≠ 0 →
      sourceIsEnabled = "true") ∧
    (sourceIsEnabled ≠ "true" → (enableSourceOrgVdc sourceIsEnabled postOk).1 = []) ∧
    (sourceIsEnabled = "false" → (disableOrgVDC sourceIsEnabled true postOk).1 = []) := by
  by_cases h : sourceIsEnabled = "true"
  · subst h
    refine ⟨fun _ => rfl, fun h' => absurd rfl h', fun h' => by simp at h'⟩
  · refine ⟨fun hc => ?_, fun _ => by simp [enableSourceOrgVdc, h], fun h' => ?_⟩
    · exact absurd (by simp [enableSourceOrgVdc, h]) hc
    · subst h'
      simp [disableOrgVDC]

/-- Witness for C10: a source Org VDC recorded as disabled leads to no
enable call from rollback and no disable call from the disable step. -/
theorem enableSourceOrgVdc_preserves_disabled_witness :
    (enableSourceOrgVdc "false" true).1 = [] ∧ (disableOrgVDC "false" true true).1 = [] :=
  ⟨(enableSourceOrgVdc_preserves_disabled "false" true).2.1 (by decide),
   (enableSourceOrgVdc_preserves_disabled "false" true).2.2 rfl⟩

end VcdValidations
